import Mathlib

/-!
Shallow embedding of the gapi HTTP client core (client.go: Config, Client,
WithOrgID, Request, request, newRequest) and of the dashboard helper
(dashboard.go), together with theorems settling the frozen claims.

Go strings/byte slices are modelled as Lean `String` (bodies sometimes as
`List Char` where byte-exact prefixes matter); machine integers as `Int`/`Nat`
(no arithmetic near overflow occurs in the modelled code); `io.Reader` values
as a small inductive recording the dynamic type that matters to the code
(`body.(*bytes.Buffer)` type assertion, `io.TeeReader` stashing); the injected
`http.Client` transport as a function from attempt index to an attempt
outcome; `encoding/json` decoding as decoder parameters (the code only
branches on decode success/failure and passes the decoded value through).
-/

namespace Gapi

/-! ### Go `path` package: Clean and (binary) Join, as used by newRequest -/

/-- Split a character list at `/` separators (model of the segment scan in
Go `path.Clean`); `cur` is the current segment, reversed. -/
def segsOf : List Char → List Char → List (List Char)
  | [], cur => [cur.reverse]
  | c :: cs, cur => if c = '/' then cur.reverse :: segsOf cs [] else segsOf cs (c :: cur)

/-- Process segments against a stack: empty and `.` segments are dropped,
`..` pops (or is kept when not rooted and nothing can be popped), others
push. This is the segment-level statement of Go `path.Clean`'s loop. -/
def cleanStack (rooted : Bool) : List (List Char) → List (List Char) → List (List Char)
  | stack, [] => stack
  | stack, seg :: rest =>
    if seg = [] ∨ seg = ['.'] then cleanStack rooted stack rest
    else if seg = ['.', '.'] then
      match stack with
      | [] => cleanStack rooted (if rooted then [] else [['.', '.']]) rest
      | top :: stk =>
        if top = ['.', '.'] then cleanStack rooted (seg :: top :: stk) rest
        else cleanStack rooted stk rest
    else cleanStack rooted (seg :: stack) rest

/-- Interleave `/` between segments. -/
def joinSegs : List (List Char) → List Char
  | [] => []
  | [s] => s
  | s :: rest => s ++ '/' :: joinSegs rest

/-- Go `path.Clean` on a character list. -/
def cleanList (p : List Char) : List Char :=
  match p with
  | [] => ['.']
  | c :: _ =>
    let rooted := c = '/'
    let stack := cleanStack rooted [] (segsOf p [])
    let body := joinSegs stack.reverse
    if rooted then '/' :: body
    else if body = [] then ['.'] else body

/-- Go `path.Clean`. -/
def pathClean (p : String) : String := String.mk (cleanList p.data)

/-- Go `path.Join(a, b)` (two arguments, as called at newRequest:
`path.Join(url.Path, requestPath)`). -/
def pathJoin (a b : String) : String :=
  if a = "" ∧ b = "" then ""
  else if a = "" then pathClean b
  else if b = "" then pathClean a
  else pathClean (a ++ "/" ++ b)

/-! ### Config, Client, WithOrgID (client.go lines 20-72) -/

/-- `url.URL` restricted to the fields newRequest touches: `Path` is read and
written; `User` is set by `New` from BasicAuth; the rest ride along opaquely
as `rest`. -/
structure URL where
  Path : String
  User : Option String
  rest : String
  deriving DecidableEq, Repr

/-- Client configuration (struct `Config`). `Client` (the injectable
`*http.Client`) is modelled by an identifier so that sharing between derived
clients is expressible. -/
structure Config where
  APIKey : String
  BasicAuth : Option String
  HTTPHeaders : List (String × String)
  Client : Option Nat
  OrgID : Int
  NumRetries : Nat
  deriving DecidableEq, Repr

/-- struct `Client`: a config, a base URL (a copy of the parsed URL value),
and the chosen `*http.Client` (identifier). -/
structure Client where
  config : Config
  baseURL : URL
  client : Nat
  deriving DecidableEq, Repr

/-- `New(baseURL, cfg)` after a successful URL parse: applies BasicAuth into
the URL user-info and selects the injected transport or the default
(identifier 0). -/
def NewClient (u : URL) (cfg : Config) : Client :=
  let u := match cfg.BasicAuth with
    | some ui => { u with User := some ui }
    | none => u
  { config := cfg
    baseURL := u
    client := cfg.Client.getD 0 }

/-- `func (c Client) WithOrgID(orgID int64) *Client` — value receiver: the
method body mutates a copy of the whole Client and returns its address. -/
def Client.WithOrgID (c : Client) (orgID : Int) : Client :=
  { c with config := { c.config with OrgID := orgID } }

/-! ### Request building: newRequest (client.go lines 236-269) -/

/-- The dynamic type and contents of the `io.Reader` passed as request body.
The code cares about: nil-ness (log branch), being a `*bytes.Buffer` (the
`body.(*bytes.Buffer)` type assertion), and the bytes that can be read.
`reader` is a `*bytes.Reader`, `tee` an `io.TeeReader` wrapper; both make the
type assertion fail. -/
inductive BodyReader where
  | noBody
  | buffer (data : List Char)
  | reader (data : List Char)
  | tee (data : List Char)
  deriving DecidableEq, Repr

/-- Bytes obtainable from the reader (`nil` reader yields nothing). -/
def BodyReader.contents : BodyReader → Option (List Char)
  | .noBody => none
  | .buffer d => some d
  | .reader d => some d
  | .tee d => some d

/-- Whether the `body.(*bytes.Buffer)` type assertion in the GF_LOG branch of
newRequest succeeds (a nil body skips the assertion). -/
def BodyReader.logSafe : BodyReader → Bool
  | .noBody => true
  | .buffer _ => true
  | .reader _ => false
  | .tee _ => false

/-- The header list built by newRequest, in `Header.Add` order (client.go
lines 246-257 and 267): Authorization when APIKey is nonempty, then
X-Grafana-Org-Id when OrgID is nonzero, then every configured custom header,
then Content-Type unconditionally. -/
def newRequestHeaders (cfg : Config) : List (String × String) :=
  let h : List (String × String) := []
  let h := if cfg.APIKey ≠ "" then h ++ [("Authorization", "Bearer " ++ cfg.APIKey)] else h
  let h := if cfg.OrgID ≠ 0 then h ++ [("X-Grafana-Org-Id", toString cfg.OrgID)] else h
  let h := h ++ cfg.HTTPHeaders
  h ++ [("Content-Type", "application/json")]

/-- The outbound request newRequest assembles. -/
structure OutRequest where
  method : String
  urlPath : String
  query : List (String × String)
  headers : List (String × String)
  body : BodyReader
  deriving DecidableEq, Repr

/-- Result of newRequest: either the built request, or a runtime panic
raised by the failed `body.(*bytes.Buffer)` type assertion when GF_LOG is set
and the body is neither nil nor a `*bytes.Buffer`. -/
inductive BuildResult where
  | panicked
  | built (req : OutRequest)
  deriving DecidableEq, Repr

/-- newRequest: joins the base path with the request path, attaches the
headers, and — when GF_LOG is nonempty — logs, asserting the non-nil body to
`*bytes.Buffer` (client.go lines 259-265), which panics for any other reader
type. -/
def newRequest (c : Client) (gfLog : Bool) (method requestPath : String)
    (query : List (String × String)) (body : BodyReader) : BuildResult :=
  if gfLog ∧ ¬body.logSafe then .panicked
  else .built
    { method := method
      urlPath := pathJoin c.baseURL.Path requestPath
      query := query
      headers := newRequestHeaders c.config
      body := body }

/-! ### The injected transport and the retry loops -/

/-- What one attempt against the injected `http.Client` yields:
`transportErr` — `c.client.Do` returns a nil response and an error;
`readErr` — a response with the given status arrives but `ioutil.ReadAll`
of its body fails after yielding `readBytes`;
`ok` — a response with the given status and fully-read body. -/
inductive AttemptResult where
  | transportErr (msg : String)
  | readErr (status : Nat) (readBytes : List Char) (msg : String)
  | ok (status : Nat) (body : List Char)
  deriving DecidableEq, Repr

/-- The loop-exit test (client.go lines 126 and 207): a response is final
iff its status is below 500 and not 429. -/
def isFinalStatus (s : Nat) : Bool := decide (s < 500) && decide (s ≠ 429)

/-- The retry loop of the generic `Request` (client.go lines 96-129), with
its variable scoping modelled faithfully: `resp` and `responseBytes` are the
outer variables (line 85 and 94) surviving the loop, while the error from
`c.client.Do`/`ReadAll` is assigned to a LOOP-LOCAL `err` introduced by `:=`
at line 97, shadowing the outer `err`; hence no error survives the loop.
Arguments: attempt index `n`, remaining extra attempts, current outer `resp`
(status of the last obtained response) and `responseBytes`. Returns the
final outer `resp`, outer `responseBytes`, and the number of attempts made. -/
def requestLoopAux (transport : Nat → AttemptResult) :
    Nat → Nat → Option Nat → List Char → Option Nat × List Char × Nat
  | n, remaining, _resp, bytes =>
    let step :=
      match transport n with
      | .transportErr _ => (none, bytes, false)
      | .readErr s part _ => (some s, part, false)
      | .ok s b => (some s, b, isFinalStatus s)
    match step with
    | (resp', bytes', final) =>
      if final then (resp', bytes', 1)
      else
        match remaining with
        | 0 => (resp', bytes', 1)
        | r + 1 =>
          match requestLoopAux transport (n + 1) r resp' bytes' with
          | (rr, bb, k) => (rr, bb, k + 1)

/-- Everything `Request` or `request` can hand back to the caller.
`panicked` — a runtime panic (failed type assertion, or `resp.StatusCode`
on a nil `resp`); `lastErr` — a transport/read error returned as-is (legacy
path, line 211-213); `apiError` — the typed `APIError` (generic path, lines
141-144); `errUnmarshalError` — the generic path's wrapped error when the
error body is not decodable (line 139); `statusError` — the legacy path's
`fmt.Errorf("status: %d, body: %v", ...)` for status ≥ 400 (line 221);
`unmarshalError` — result decoding failed; `noValue` — legacy success with a
nil `responseStruct`; `value` — a decoded result. -/
inductive Outcome (ε ρ : Type) where
  | panicked
  | lastErr (msg : String)
  | apiError (status : Nat) (body : ε)
  | errUnmarshalError (status : Nat) (raw : List Char)
  | statusError (status : Nat) (raw : List Char)
  | unmarshalError (raw : List Char)
  | noValue
  | value (v : ρ)
  deriving DecidableEq, Repr

/-- Body reader built on attempt `n` of the generic `Request`: a fresh
`bytes.NewReader` over the once-marshaled `requestBytes` (line 97) — never
nil, even when `requestBody` was nil (then `requestBytes` is the nil slice
and the reader is empty). -/
def genericBodyAt (requestBytes : List Char) (_n : Nat) : BodyReader :=
  .reader requestBytes

/-- The generic `Request[ReqT, ResT]` (client.go lines 83-154).
`requestBody` is the marshaled bytes of the caller's value (`none` for a nil
pointer; marshaling a well-formed struct does not fail and is done once, up
front). `errDecode` models `json.Unmarshal` into `map[string]interface{}`,
`resDecode` models `json.Unmarshal` into `ResT`; the code only branches on
their success. Returns the outcome and the number of transport attempts.
Because the loop-local `err` shadows the outer one, the post-loop error
check (line 130) never fires, and exhausting the loop on transport errors
reaches `resp.StatusCode` (line 135) with `resp == nil`: a panic. -/
def RequestModel {ε ρ : Type} (c : Client) (gfLog : Bool)
    (method requestPath : String) (query : List (String × String))
    (requestBody : Option (List Char)) (transport : Nat → AttemptResult)
    (errDecode : List Char → Option ε) (resDecode : List Char → Option ρ) :
    Outcome ε ρ × Nat :=
  let requestBytes := requestBody.getD []
  match newRequest c gfLog method requestPath query (genericBodyAt requestBytes 0) with
  | .panicked => (.panicked, 0)
  | .built _ =>
    match requestLoopAux transport 0 c.config.NumRetries none [] with
    | (resp, bytes, attempts) =>
      match resp with
      | none => (.panicked, attempts)
      | some s =>
        if 400 ≤ s then
          match errDecode bytes with
          | none => (.errUnmarshalError s bytes, attempts)
          | some e => (.apiError s e, attempts)
        else
          match resDecode bytes with
          | none => (.unmarshalError bytes, attempts)
          | some v => (.value v, attempts)

/-- Whether the caller passed a nil `io.Reader`. -/
def BodyReader.isNil : BodyReader → Bool
  | .noBody => true
  | _ => false

/-- Body reader in force on attempt `n` of the legacy `request` (client.go
lines 164-175). When retries are configured and a body is present, attempt 0
reads the caller's reader through an `io.TeeReader` into `bodyBuffer`;
`consume0` is the number of body bytes the transport actually consumed on
attempt 0, so the stash holds exactly that prefix. Every later attempt
replays `bytes.NewReader(bodyBuffer.Bytes())` — unconditionally, even for a
nil original body. -/
def legacyBodyAt (numRetries : Nat) (callerBody : BodyReader) (consume0 : Nat) :
    Nat → BodyReader :=
  fun n =>
    let teed := decide (0 < numRetries) && !callerBody.isNil
    match n with
    | 0 => if teed then .tee (callerBody.contents.getD []) else callerBody
    | _ + 1 => .reader (if teed then (callerBody.contents.getD []).take consume0 else [])

/-- Result of the legacy retry loop: a panic inside `newRequest` (GF_LOG type
assertion), or the surviving `err`, `resp` status, `bodyContents`, and
attempt count. -/
inductive LegacyLoopRes where
  | panicked (attempts : Nat)
  | done (lastErr : Option String) (resp : Option Nat) (bytes : List Char) (attempts : Nat)
  deriving DecidableEq, Repr

/-- The retry loop of the legacy `request` (client.go lines 171-210). Unlike
the generic path, `err` here is the function-level variable (line 160,
assigned with `=` at 177/187/199), so the error of the LAST attempt survives
the loop. -/
def legacyLoopAux (c : Client) (gfLog : Bool) (method requestPath : String)
    (query : List (String × String)) (transport : Nat → AttemptResult)
    (bodyAt : Nat → BodyReader) :
    Nat → Nat → Option Nat → List Char → LegacyLoopRes
  | n, remaining, _resp, bytes =>
    match newRequest c gfLog method requestPath query (bodyAt n) with
    | .panicked => .panicked 0
    | .built _ =>
      let step :=
        match transport n with
        | .transportErr m => (some m, none, bytes, false)
        | .readErr s part m => (some m, some s, part, false)
        | .ok s b => (none, some s, b, isFinalStatus s)
      match step with
      | (err', resp', bytes', final) =>
        if final then .done err' resp' bytes' 1
        else
          match remaining with
          | 0 => .done err' resp' bytes' 1
          | r + 1 =>
            match legacyLoopAux c gfLog method requestPath query transport bodyAt
                (n + 1) r resp' bytes' with
            | .panicked k => .panicked (k + 1)
            | .done e rr bb k => .done e rr bb (k + 1)

/-- The legacy `(c *Client) request` (client.go lines 156-234). `wantResult`
is whether `responseStruct` is non-nil; `resDecode` models `json.Unmarshal`
into it. On a surviving error the error is returned as-is; otherwise status
≥ 400 yields the formatted `statusError`; a nil `responseStruct` returns
without decoding. (The `resp = none, lastErr = none` branch is unreachable:
every loop exit sets one of the two; it is mapped to `panicked` as that is
what dereferencing a nil `resp` would do.) -/
def requestModel {ε ρ : Type} (c : Client) (gfLog : Bool)
    (method requestPath : String) (query : List (String × String))
    (callerBody : BodyReader) (wantResult : Bool)
    (transport : Nat → AttemptResult) (consume0 : Nat)
    (resDecode : List Char → Option ρ) : Outcome ε ρ × Nat :=
  let bodyAt := legacyBodyAt c.config.NumRetries callerBody consume0
  match legacyLoopAux c gfLog method requestPath query transport bodyAt
      0 c.config.NumRetries none [] with
  | .panicked k => (.panicked, k)
  | .done lastErr resp bytes attempts =>
    match lastErr with
    | some m => (.lastErr m, attempts)
    | none =>
      match resp with
      | none => (.panicked, attempts)
      | some s =>
        if 400 ≤ s then (.statusError s bytes, attempts)
        else if wantResult then
          match resDecode bytes with
          | none => (.unmarshalError bytes, attempts)
          | some v => (.value v, attempts)
        else (.noValue, attempts)

/-! ### Dashboard fetching (dashboard.go lines 10-37 and 143-178) -/

/-- struct `DashboardMeta`. -/
structure DashboardMeta where
  IsStarred : Bool
  Slug : String
  Folder : Int
  URL : String
  deriving DecidableEq, Repr

/-- struct `Dashboard`; the `map[string]interface{}` model payload is an
association list of rendered values, which the claims never inspect. -/
structure Dashboard where
  Meta : DashboardMeta
  Model : List (String × String)
  FolderID : Int
  FolderUID : String
  Overwrite : Bool
  Message : String
  deriving DecidableEq, Repr

/-- The shared helper `(c *Client) dashboard(path)` (dashboard.go lines
169-178): a GET through the legacy `request` into a fresh `Dashboard`; on
success, `result.FolderID = result.Meta.Folder` before returning. Errors
surface as `none`. -/
def Client.dashboard (c : Client) (gfLog : Bool) (path : String)
    (transport : Nat → AttemptResult)
    (resDecode : List Char → Option Dashboard) : Option Dashboard :=
  match (requestModel (ε := Unit) c gfLog "GET" path [] .noBody true transport 0 resDecode).1 with
  | .value d => some { d with FolderID := d.Meta.Folder }
  | _ => none

/-- `(c *Client) Dashboard(slug)` (deprecated fetch by slug). -/
def Client.Dashboard_ (c : Client) (gfLog : Bool) (slug : String)
    (transport : Nat → AttemptResult)
    (resDecode : List Char → Option Dashboard) : Option Dashboard :=
  c.dashboard gfLog ("/api/dashboards/db/" ++ slug) transport resDecode

/-- `(c *Client) DashboardByUID(uid)`. -/
def Client.DashboardByUID (c : Client) (gfLog : Bool) (uid : String)
    (transport : Nat → AttemptResult)
    (resDecode : List Char → Option Dashboard) : Option Dashboard :=
  c.dashboard gfLog ("/api/dashboards/uid/" ++ uid) transport resDecode

/-- The URL path of a successfully built request. -/
def BuildResult.urlPathOf : BuildResult → Option String
  | .panicked => none
  | .built r => some r.urlPath

/-! ### Concrete fixtures for evaluations -/

/-- A client with the given retry count, base path `/api`, and no auth. -/
def client0 (numRetries : Nat) : Client :=
  { config :=
      { APIKey := ""
        BasicAuth := none
        HTTPHeaders := []
        Client := none
        OrgID := 0
        NumRetries := numRetries }
    baseURL := { Path := "/api", User := none, rest := "" }
    client := 0 }

/-- A client over an arbitrary base path (for path-joining evaluations). -/
def baseClient (basePath : String) : Client :=
  { client0 0 with baseURL := { Path := basePath, User := none, rest := "" } }

/-- A transport whose every attempt fails at the network level. -/
def alwaysFailTransport : Nat → AttemptResult := fun _ => .transportErr "connection refused"

/-- A transport that always delivers a response but whose body read fails. -/
def alwaysReadFailTransport : Nat → AttemptResult := fun _ => .readErr 500 [] "read fail"

/-- A transport that always answers 200 with a fixed body. -/
def okTransport : Nat → AttemptResult := fun _ => .ok 200 "ok-body".data

/-- The spec's example error body. -/
def msgBody : List Char := "\x7b\"message\":\"not found\"\x7d".data

/-- A transport that always answers 404 with the spec's example body. -/
def nf404Transport : Nat → AttemptResult := fun _ => .ok 404 msgBody

/-- `json.Unmarshal` into `map[string]interface{}` restricted to the inputs
the concrete evaluations use: it agrees with JSON semantics on `msgBody` and
fails elsewhere (in particular on the empty input, as json.Unmarshal does). -/
def errDecodeMsg : List Char → Option (List (String × String)) :=
  fun b => if b = msgBody then some [("message", "not found")] else none

/-- An error-body decoder that always fails (non-JSON bodies). -/
def errDecodeNone : List Char → Option (List (String × String)) := fun _ => none

/-- A result decoder that always fails. -/
def resDecodeNone : List Char → Option Unit := fun _ => none

/-- A result decoder that succeeds exactly on `okTransport`'s body; it fails
on the empty input, as `json.Unmarshal` of zero bytes does. -/
def resDecodeNat : List Char → Option Nat :=
  fun b => if b = "ok-body".data then some 7 else none

/-- A transport that fails on attempt 0 and answers 200 afterwards. -/
def flakyTransport : Nat → AttemptResult :=
  fun n => if n = 0 then .transportErr "conn" else .ok 200 "ok-body".data

/-- A transport that always answers 500 with a non-JSON body. -/
def err500Transport : Nat → AttemptResult := fun _ => .ok 500 "oops".data

/-- A transport that always answers 200 with a zero-byte body. -/
def emptyOkTransport : Nat → AttemptResult := fun _ => .ok 200 []

/-- A config with a token, a nonzero org id and one custom header. -/
def cfgW : Config :=
  { APIKey := "tok"
    BasicAuth := none
    HTTPHeaders := [("X-Custom", "1")]
    Client := none
    OrgID := 3
    NumRetries := 0 }

/-- A dashboard as decoded from a response body: the top-level folderId (3)
disagrees with meta.folderId (5). -/
def dash0 : Dashboard :=
  { Meta := { IsStarred := false, Slug := "s", Folder := 5, URL := "/d/u/s" }
    Model := [("title", "t")]
    FolderID := 3
    FolderUID := "f"
    Overwrite := false
    Message := "" }

/-- `dash0` after the helper's `result.FolderID = result.Meta.Folder`. -/
def dashFixed : Dashboard := { dash0 with FolderID := dash0.Meta.Folder }

/-- A transport answering 200 with a fixed dashboard body. -/
def dashTransport : Nat → AttemptResult := fun _ => .ok 200 "dash-body".data

/-- A decoder yielding `dash0` exactly on that body. -/
def dashDecode : List Char → Option Dashboard :=
  fun b => if b = "dash-body".data then some dash0 else none

/-! ## Helper lemmas about the retry loops -/

/-- If attempt `n` yields a final response, the generic loop stops there with
that response, whatever attempts remain. -/
theorem requestLoopAux_final (transport : Nat → AttemptResult) (n remaining : Nat)
    (resp : Option Nat) (bytes : List Char) (s : Nat) (b : List Char)
    (h0 : transport n = .ok s b) (hf : isFinalStatus s = true) :
    requestLoopAux transport n remaining resp bytes = (some s, b, 1) := by
  unfold requestLoopAux
  rw [h0]
  simp [hf]

/-- If every attempt yields the same non-final response, the generic loop
runs all its attempts and ends holding that response. -/
theorem requestLoopAux_const (transport : Nat → AttemptResult) (s : Nat) (b : List Char)
    (ht : ∀ m, transport m = .ok s b) (hnf : isFinalStatus s = false) :
    ∀ remaining n resp bytes,
      requestLoopAux transport n remaining resp bytes = (some s, b, remaining + 1) := by
  intro remaining
  induction remaining with
  | zero =>
    intro n resp bytes
    unfold requestLoopAux
    rw [ht n]
    simp [hnf]
  | succ r ih =>
    intro n resp bytes
    unfold requestLoopAux
    rw [ht n]
    simp [hnf, ih (n + 1)]

/-- Legacy-loop analogue of `requestLoopAux_final` (with GF_LOG unset, so no
build-time panic). -/
theorem legacyLoopAux_final (c : Client) (method requestPath : String)
    (query : List (String × String)) (transport : Nat → AttemptResult)
    (bodyAt : Nat → BodyReader) (n remaining : Nat) (resp : Option Nat)
    (bytes : List Char) (s : Nat) (b : List Char)
    (h0 : transport n = .ok s b) (hf : isFinalStatus s = true) :
    legacyLoopAux c false method requestPath query transport bodyAt n remaining resp bytes =
      .done none (some s) b 1 := by
  unfold legacyLoopAux
  rw [h0]
  simp [newRequest, hf]

/-- With GF_LOG unset, newRequest always builds (no type assertion runs). -/
theorem newRequest_noLog (c : Client) (method requestPath : String)
    (query : List (String × String)) (body : BodyReader) :
    newRequest c false method requestPath query body =
      .built
        { method := method
          urlPath := pathJoin c.baseURL.Path requestPath
          query := query
          headers := newRequestHeaders c.config
          body := body } := by
  simp [newRequest]

/-- The generic `Request`, given the loop's final state: the post-loop
classification of client.go lines 135-153 applied to the last response. -/
theorem RequestModel_eval {ε ρ : Type} (c : Client) (method requestPath : String)
    (query : List (String × String)) (requestBody : Option (List Char))
    (transport : Nat → AttemptResult) (errDecode : List Char → Option ε)
    (resDecode : List Char → Option ρ) (s : Nat) (b : List Char) (attempts : Nat)
    (hloop : requestLoopAux transport 0 c.config.NumRetries none [] = (some s, b, attempts)) :
    RequestModel c false method requestPath query requestBody transport errDecode resDecode =
      ((if 400 ≤ s then
          match errDecode b with
          | none => Outcome.errUnmarshalError s b
          | some e => Outcome.apiError s e
        else
          match resDecode b with
          | none => Outcome.unmarshalError b
          | some v => Outcome.value v), attempts) := by
  unfold RequestModel
  dsimp only
  rw [newRequest_noLog, hloop]
  by_cases h4 : 400 ≤ s
  · simp only [h4, if_true]
    cases errDecode b <;> simp
  · simp only [h4, if_false]
    cases resDecode b <;> simp

/-- The legacy `request`, given a loop exit with no surviving error: the
post-loop classification of client.go lines 215-233. -/
theorem requestModel_eval {ε ρ : Type} (c : Client) (method requestPath : String)
    (query : List (String × String)) (callerBody : BodyReader) (wantResult : Bool)
    (transport : Nat → AttemptResult) (consume0 : Nat)
    (resDecode : List Char → Option ρ) (s : Nat) (b : List Char) (attempts : Nat)
    (hloop : legacyLoopAux c false method requestPath query transport
        (legacyBodyAt c.config.NumRetries callerBody consume0)
        0 c.config.NumRetries none [] = .done none (some s) b attempts) :
    requestModel (ε := ε) c false method requestPath query callerBody wantResult transport
        consume0 resDecode =
      ((if 400 ≤ s then Outcome.statusError s b
        else if wantResult then
          match resDecode b with
          | none => Outcome.unmarshalError b
          | some v => Outcome.value v
        else Outcome.noValue), attempts) := by
  unfold requestModel
  dsimp only
  rw [hloop]
  by_cases h4 : 400 ≤ s
  · simp [h4]
  · simp only [h4, if_false]
    by_cases hw : wantResult
    · simp only [hw, if_true]
      cases resDecode b <;> simp
    · simp [hw]

/-! ## Claim theorems -/

/-- C6: `WithOrgID id` yields a client whose Config carries `id` as OrgID and
which shares the transport and base URL with the original, every other Config
field being the original's. The Go method takes its receiver by value, so the
mutation at client.go line 70 happens on a copy and the caller's Client is
untouched; in this pure embedding that is reflected by `WithOrgID` being a
function of the Client value, and the derived Config being a fresh structure
value whose fields are as stated here. -/
theorem withOrgID_copies (c : Client) (id : Int) :
    (c.WithOrgID id).config.OrgID = id ∧
    (c.WithOrgID id).baseURL = c.baseURL ∧
    (c.WithOrgID id).client = c.client ∧
    (c.WithOrgID id).config.APIKey = c.config.APIKey ∧
    (c.WithOrgID id).config.BasicAuth = c.config.BasicAuth ∧
    (c.WithOrgID id).config.HTTPHeaders = c.config.HTTPHeaders ∧
    (c.WithOrgID id).config.Client = c.config.Client ∧
    (c.WithOrgID id).config.NumRetries = c.config.NumRetries :=
  ⟨rfl, rfl, rfl, rfl, rfl, rfl, rfl, rfl⟩

/-- C7: newRequest joins base path `/api` with call path `/dashboards/db/x`
to exactly `/api/dashboards/db/x`, for every combination of trailing slash on
the base and leading/trailing slash on the call path. -/
theorem newRequest_path_join :
    ∀ b ∈ ["/api", "/api/"],
      ∀ p ∈ ["/dashboards/db/x", "dashboards/db/x", "/dashboards/db/x/", "dashboards/db/x/"],
        (newRequest (baseClient b) false "GET" p [] .noBody).urlPathOf =
          some "/api/dashboards/db/x" := by decide

/-- Witness for C7 at one slash combination. -/
theorem newRequest_path_join_witness :
    (newRequest (baseClient "/api/") false "GET" "dashboards/db/x/" [] .noBody).urlPathOf =
      some "/api/dashboards/db/x" :=
  newRequest_path_join "/api/" (by decide) "dashboards/db/x/" (by decide)

/-- C1: with every attempt ending in a transport or read failure, the claim
says both executors return the last failure. The legacy `request` does; the
generic `Request` does not: its loop-local `err` (introduced by `:=` at
client.go line 97) shadows the outer `err` checked at line 130, so after a
transport-failure exhaustion it dereferences the nil `resp` at line 135 — a
panic — and after a read-failure exhaustion it silently decodes the partial
body instead of propagating the read error. -/
theorem request_exhausted_failures_generic_panics :
    RequestModel (client0 2) false "GET" "/x" [] none alwaysFailTransport
        errDecodeNone resDecodeNone = (.panicked, 3) ∧
    requestModel (ε := List (String × String)) (client0 2) false "GET" "/x" [] .noBody false
        alwaysFailTransport 0 resDecodeNone = (.lastErr "connection refused", 3) ∧
    RequestModel (client0 1) false "GET" "/x" [] none alwaysReadFailTransport
        errDecodeNone resDecodeNone = (.errUnmarshalError 500 [], 2) ∧
    requestModel (ε := List (String × String)) (client0 1) false "GET" "/x" [] .noBody false
        alwaysReadFailTransport 0 resDecodeNone = (.lastErr "read fail", 2) := by
  decide

/-- C2: enabling GF_LOG changes outcomes. The `body.(*bytes.Buffer)` type
assertion in newRequest's log branch (client.go line 263) panics for the
`*bytes.Reader` the generic path always passes, for the `io.TeeReader` the
legacy path passes when retries are configured with a body, and for the
`*bytes.Reader` every legacy retry passes; with GF_LOG unset the identical
calls complete normally. -/
theorem gfLog_alters_control_flow :
    RequestModel (client0 0) true "GET" "/x" [] none okTransport
        errDecodeNone resDecodeNat = (.panicked, 0) ∧
    RequestModel (client0 0) false "GET" "/x" [] none okTransport
        errDecodeNone resDecodeNat = (.value 7, 1) ∧
    requestModel (ε := List (String × String)) (client0 1) true "POST" "/x" []
        (.buffer "ab".data) false okTransport 2 resDecodeNone = (.panicked, 0) ∧
    requestModel (ε := List (String × String)) (client0 1) false "POST" "/x" []
        (.buffer "ab".data) false okTransport 2 resDecodeNone = (.noValue, 1) ∧
    requestModel (ε := List (String × String)) (client0 1) true "GET" "/x" []
        .noBody false flakyTransport 0 resDecodeNone = (.panicked, 1) ∧
    requestModel (ε := List (String × String)) (client0 1) false "GET" "/x" []
        .noBody false flakyTransport 0 resDecodeNone = (.noValue, 2) := by
  decide

/-- C3 counterexample: on the legacy path a terminal 404 with the spec's
example JSON body comes back as the plain formatted error of client.go line
221 (`fmt.Errorf("status: %d, body: %v", ...)` over the RAW body), which is
not the `APIError` with the parsed body that the claim promises for both
call paths. -/
theorem legacy_terminal_error_is_plain_string :
    (requestModel (ε := List (String × String)) (client0 0) false "GET" "/x" [] .noBody true
        nf404Transport 0 resDecodeNone).1 = .statusError 404 msgBody ∧
    (Outcome.statusError 404 msgBody ≠
      (Outcome.apiError 404 [("message", "not found")] :
        Outcome (List (String × String)) Unit)) := by
  decide

/-- C3 amended: for a terminal response with status ≥ 400, the GENERIC
`Request` path returns `APIError{status, parsedBody}` when the body parses
as a generic JSON object and a `DecodeError` wrapping the raw body and
status otherwise; the LEGACY `request` method instead returns a plain
formatted error carrying the status and the raw body text, with no JSON
parsing at all. -/
theorem terminal_error_classification {ε ρ : Type} (c : Client)
    (method requestPath : String) (query : List (String × String))
    (requestBody : Option (List Char)) (callerBody : BodyReader) (wantResult : Bool)
    (transport : Nat → AttemptResult) (consume0 : Nat)
    (errDecode : List Char → Option ε) (resDecode resDecodeL : List Char → Option ρ)
    (s : Nat) (b : List Char)
    (h0 : transport 0 = .ok s b) (h4 : 400 ≤ s) (hf : isFinalStatus s = true) :
    (RequestModel c false method requestPath query requestBody transport errDecode resDecode).1 =
      (match errDecode b with
        | none => Outcome.errUnmarshalError s b
        | some e => Outcome.apiError s e) ∧
    (requestModel (ε := ε) c false method requestPath query callerBody wantResult transport
        consume0 resDecodeL).1 = .statusError s b := by
  have hG := RequestModel_eval c method requestPath query requestBody transport errDecode
    resDecode s b 1 (requestLoopAux_final transport 0 c.config.NumRetries none [] s b h0 hf)
  have hL := requestModel_eval (ε := ε) c method requestPath query callerBody wantResult
    transport consume0 resDecodeL s b 1
    (legacyLoopAux_final c method requestPath query transport _ 0 c.config.NumRetries none []
      s b h0 hf)
  rw [hG, hL]
  simp [h4]

/-- Witness for C3's amended theorem at the spec's 404 example. -/
theorem terminal_error_classification_witness :
    (RequestModel (client0 0) false "GET" "/x" [] none nf404Transport errDecodeMsg
        resDecodeNone).1 = .apiError 404 [("message", "not found")] ∧
    (requestModel (ε := List (String × String)) (client0 0) false "GET" "/x" [] .noBody true
        nf404Transport 0 resDecodeNone).1 = .statusError 404 msgBody := by
  have h := terminal_error_classification (client0 0) "GET" "/x" [] none .noBody true
    nf404Transport 0 errDecodeMsg resDecodeNone resDecodeNone 404 msgBody rfl
    (by decide) (by decide)
  exact ⟨h.1.trans (by decide), h.2⟩

/-- C4: the generic retry loop treats a response as final exactly when its
status is `< 500` and `≠ 429`: (a) any such status on the first attempt makes
exactly 1 attempt, whatever `NumRetries` is; (b) a 500 or 429 on every
attempt makes exactly `NumRetries + 1` attempts and the result is the
ordinary post-loop classification of that last response (an `APIError`, or a
`DecodeError` if its body does not parse) — not some other error kind. -/
theorem retry_finality {ε ρ : Type} (c : Client) (method requestPath : String)
    (query : List (String × String)) (requestBody : Option (List Char))
    (transport : Nat → AttemptResult)
    (errDecode : List Char → Option ε) (resDecode : List Char → Option ρ) :
    (∀ s b, transport 0 = .ok s b → s < 500 → s ≠ 429 →
      (RequestModel c false method requestPath query requestBody transport
          errDecode resDecode).2 = 1) ∧
    (∀ s b, (∀ n, transport n = .ok s b) → (s = 500 ∨ s = 429) →
      (RequestModel c false method requestPath query requestBody transport
          errDecode resDecode).2 = c.config.NumRetries + 1 ∧
      (RequestModel c false method requestPath query requestBody transport
          errDecode resDecode).1 =
        (match errDecode b with
          | none => Outcome.errUnmarshalError s b
          | some e => Outcome.apiError s e)) := by
  constructor
  · intro s b h0 hlt hne
    have hf : isFinalStatus s = true := by
      simp only [isFinalStatus, Bool.and_eq_true, decide_eq_true_eq]
      exact ⟨hlt, hne⟩
    rw [RequestModel_eval c method requestPath query requestBody transport errDecode
      resDecode s b 1 (requestLoopAux_final transport 0 c.config.NumRetries none [] s b h0 hf)]
  · intro s b ht hs
    have hnf : isFinalStatus s = false := by
      rcases hs with h | h <;> subst h <;> decide
    have h4 : 400 ≤ s := by rcases hs with h | h <;> subst h <;> decide
    have hloop := requestLoopAux_const transport s b ht hnf c.config.NumRetries 0 none []
    rw [RequestModel_eval c method requestPath query requestBody transport errDecode
      resDecode s b (c.config.NumRetries + 1) hloop]
    simp [h4]

/-- Witness for C4: a terminal 200 on attempt 0 makes one attempt despite 5
configured retries; a persistent 500 with 2 configured retries makes 3
attempts and yields the decode-failure classification of that 500. -/
theorem retry_finality_witness :
    (RequestModel (client0 5) false "GET" "/x" [] none okTransport errDecodeNone
        resDecodeNat).2 = 1 ∧
    (RequestModel (client0 2) false "GET" "/x" [] none err500Transport errDecodeNone
        resDecodeNone).2 = 3 ∧
    (RequestModel (client0 2) false "GET" "/x" [] none err500Transport errDecodeNone
        resDecodeNone).1 = .errUnmarshalError 500 "oops".data := by
  have h1 := retry_finality (client0 5) "GET" "/x" [] none okTransport errDecodeNone resDecodeNat
  have h2 := retry_finality (client0 2) "GET" "/x" [] none err500Transport errDecodeNone
    resDecodeNone
  refine ⟨h1.1 200 "ok-body".data rfl (by decide) (by decide), ?_, ?_⟩
  · exact ((h2.2 500 "oops".data (fun n => rfl) (Or.inl rfl)).1).trans (by decide)
  · exact ((h2.2 500 "oops".data (fun n => rfl) (Or.inl rfl)).2).trans (by decide)

/-- C5 counterexample: legacy path, retries configured (`NumRetries = 2`),
caller body `"ab"` in a `*bytes.Buffer`, and a first attempt whose transport
send fails before consuming any body bytes (`consume0 = 0`, e.g. connection
refused). The `io.TeeReader` stash then holds nothing, so the reader
replayed on the retry offers the empty byte string — not bytes identical to
the original `"ab"` that attempt 0 offered. -/
theorem legacy_retry_body_truncated :
    (legacyBodyAt 2 (.buffer "ab".data) 0 0).contents = some "ab".data ∧
    (legacyBodyAt 2 (.buffer "ab".data) 0 1).contents = some [] ∧
    ((some [] : Option (List Char)) ≠ some "ab".data) := by
  decide

/-- C5 amended: on the generic `Request` path every attempt reads a fresh
reader over the once-marshaled bytes, so the offered body is byte-identical
to the original on every attempt. On the legacy path, attempt 0 offers the
original bytes, and every retry replays exactly the prefix of the body that
the transport consumed on attempt 0 — byte-identical to the original
precisely when attempt 0 consumed the body in full. -/
theorem retry_body_replay (requestBytes orig : List Char) (numRetries consume0 : Nat)
    (callerBody : BodyReader)
    (hb : callerBody.contents = some orig) (hr : 0 < numRetries) :
    (∀ n, (genericBodyAt requestBytes n).contents = some requestBytes) ∧
    (legacyBodyAt numRetries callerBody consume0 0).contents = some orig ∧
    (∀ n, (legacyBodyAt numRetries callerBody consume0 (n + 1)).contents =
      some (orig.take consume0)) ∧
    (orig.length ≤ consume0 →
      ∀ n, (legacyBodyAt numRetries callerBody consume0 (n + 1)).contents = some orig) := by
  rcases callerBody with _ | d | d | d
  · exact absurd hb (by simp [BodyReader.contents])
  all_goals obtain rfl : d = orig := Option.some.inj hb
  all_goals refine ⟨fun n => rfl, ?_, ?_, ?_⟩
  all_goals simp [legacyBodyAt, hr, BodyReader.contents, BodyReader.isNil,
    List.take_of_length_le]

/-- Witness for C5's amended theorem: body `"ab"`, two retries, attempt 0
consuming both bytes — attempt 1 of the generic path and attempt 1 of the
legacy path both offer `"ab"` again. -/
theorem retry_body_replay_witness :
    (genericBodyAt "ab".data 1).contents = some "ab".data ∧
    (legacyBodyAt 2 (.buffer "ab".data) 2 1).contents = some "ab".data := by
  have h := retry_body_replay "ab".data "ab".data 2 2 (.buffer "ab".data) rfl (by decide)
  exact ⟨h.1 1, h.2.2.2 (by decide) 0⟩

/-- C8: every request built by newRequest carries `Content-Type:
application/json`; it carries an `Authorization: Bearer <token>` header iff
the configured APIKey is nonempty; it carries `X-Grafana-Org-Id` with the id
in base 10 iff the configured OrgID is nonzero; and every configured custom
header is applied. (The iff directions need the custom headers not to reuse
the two built-in names, since `Header.Add` appends and custom headers could
otherwise introduce them independently.) -/
theorem newRequestHeaders_spec (cfg : Config)
    (hsafe : ∀ kv ∈ cfg.HTTPHeaders, kv.1 ≠ "Authorization" ∧ kv.1 ≠ "X-Grafana-Org-Id") :
    ("Content-Type", "application/json") ∈ newRequestHeaders cfg ∧
    ((∃ v, ("Authorization", v) ∈ newRequestHeaders cfg) ↔ cfg.APIKey ≠ "") ∧
    (cfg.APIKey ≠ "" → ("Authorization", "Bearer " ++ cfg.APIKey) ∈ newRequestHeaders cfg) ∧
    ((∃ v, ("X-Grafana-Org-Id", v) ∈ newRequestHeaders cfg) ↔ cfg.OrgID ≠ 0) ∧
    (cfg.OrgID ≠ 0 → ("X-Grafana-Org-Id", toString cfg.OrgID) ∈ newRequestHeaders cfg) ∧
    (∀ kv ∈ cfg.HTTPHeaders, kv ∈ newRequestHeaders cfg) := by
  have hauth : ∀ v, ("Authorization", v) ∈ cfg.HTTPHeaders → False :=
    fun v hv => (hsafe _ hv).1 rfl
  have horg : ∀ v, ("X-Grafana-Org-Id", v) ∈ cfg.HTTPHeaders → False :=
    fun v hv => (hsafe _ hv).2 rfl
  by_cases hk : cfg.APIKey = "" <;> by_cases ho : cfg.OrgID = 0 <;>
    simp [newRequestHeaders, hk, ho, hauth, horg]
  · exact ⟨fun x => hauth x, fun x => horg x, fun a b hm => Or.inl hm⟩
  · exact ⟨fun x => hauth x, fun a b hm => Or.inr (Or.inl hm)⟩
  · exact ⟨fun x => horg x, fun a b hm => Or.inr (Or.inl hm)⟩
  · exact fun a b hm => Or.inr (Or.inr (Or.inl hm))

/-- Witness for C8 with token `tok`, org id 3, one custom header. -/
theorem newRequestHeaders_spec_witness :
    ("Content-Type", "application/json") ∈ newRequestHeaders cfgW ∧
    ("Authorization", "Bearer tok") ∈ newRequestHeaders cfgW ∧
    ("X-Grafana-Org-Id", "3") ∈ newRequestHeaders cfgW ∧
    ("X-Custom", "1") ∈ newRequestHeaders cfgW := by
  have h := newRequestHeaders_spec cfgW (by decide)
  refine ⟨h.1, ?_, ?_, h.2.2.2.2.2 ("X-Custom", "1") (by decide)⟩
  · exact (by decide : ("Bearer tok" : String) = "Bearer " ++ cfgW.APIKey) ▸
      h.2.2.1 (by decide)
  · exact (by decide : ("3" : String) = toString cfgW.OrgID) ▸
      h.2.2.2.2.1 (by decide)

/-- C9: on the generic `Request` path every final response with status < 400
is unconditionally unmarshaled into the result type — there is no
"no result requested" mode — so when `json.Unmarshal` fails (as it does on a
zero-byte body) `Request` returns that error rather than succeed; the legacy
`request` with a nil output struct returns nil without decoding anything,
whatever the decoder would say. -/
theorem success_decode_paths {ε ρ : Type} (c : Client) (method requestPath : String)
    (query : List (String × String)) (requestBody : Option (List Char))
    (callerBody : BodyReader) (transport : Nat → AttemptResult) (consume0 : Nat)
    (errDecode : List Char → Option ε) (resDecode resDecodeL : List Char → Option ρ)
    (s : Nat) (b : List Char) (h0 : transport 0 = .ok s b) (hs : s < 400) :
    (RequestModel c false method requestPath query requestBody transport errDecode
        resDecode).1 =
      (match resDecode b with
        | none => Outcome.unmarshalError b
        | some v => Outcome.value v) ∧
    (requestModel (ε := ε) c false method requestPath query callerBody false transport
        consume0 resDecodeL).1 = .noValue := by
  have hf : isFinalStatus s = true := by
    simp only [isFinalStatus, Bool.and_eq_true, decide_eq_true_eq]
    omega
  have h4 : ¬400 ≤ s := by omega
  have hG := RequestModel_eval c method requestPath query requestBody transport errDecode
    resDecode s b 1 (requestLoopAux_final transport 0 c.config.NumRetries none [] s b h0 hf)
  have hL := requestModel_eval (ε := ε) c method requestPath query callerBody false
    transport consume0 resDecodeL s b 1
    (legacyLoopAux_final c method requestPath query transport _ 0 c.config.NumRetries none []
      s b h0 hf)
  rw [hG, hL]
  simp [h4]

/-- Witness for C9: a 200 with an empty body makes the generic path return
the unmarshal failure (the decoder rejects zero bytes); a nil output struct
makes the legacy path succeed with no value. -/
theorem success_decode_paths_witness :
    (RequestModel (client0 0) false "GET" "/x" [] none emptyOkTransport errDecodeNone
        resDecodeNat).1 = .unmarshalError [] ∧
    (requestModel (ε := List (String × String)) (client0 0) false "GET" "/x" [] .noBody false
        emptyOkTransport 0 resDecodeNat).1 = .noValue := by
  have h := success_decode_paths (client0 0) "GET" "/x" [] none .noBody emptyOkTransport 0
    errDecodeNone resDecodeNat resDecodeNat 200 [] rfl (by decide)
  exact ⟨h.1.trans (by decide), h.2⟩

/-- The shared dashboard helper only ever returns a dashboard whose FolderID
has been overwritten with the decoded Meta.Folder (dashboard.go line 175). -/
theorem dashboard_helper_folder (c : Client) (gfLog : Bool) (path : String)
    (transport : Nat → AttemptResult) (resDecode : List Char → Option Dashboard)
    (d : Dashboard) (h : c.dashboard gfLog path transport resDecode = some d) :
    d.FolderID = d.Meta.Folder := by
  unfold Client.dashboard at h
  cases hout : (requestModel (ε := Unit) c gfLog "GET" path [] .noBody true transport 0
      resDecode).1 <;> rw [hout] at h <;> try exact Option.noConfusion h
  case value v =>
    cases Option.some.inj h
    rfl

/-- C10: after every successful fetch through `Dashboard`, `DashboardByUID`,
or the shared `dashboard` helper, the returned value's FolderID equals the
decoded Meta.Folder — whatever top-level folderId the body carried is
overwritten before the result is returned. -/
theorem dashboard_folderID_meta (c : Client) (gfLog : Bool) (slug uid path : String)
    (transport : Nat → AttemptResult) (resDecode : List Char → Option Dashboard)
    (d₁ d₂ d₃ : Dashboard) :
    (c.dashboard gfLog path transport resDecode = some d₁ →
      d₁.FolderID = d₁.Meta.Folder) ∧
    (c.Dashboard_ gfLog slug transport resDecode = some d₂ →
      d₂.FolderID = d₂.Meta.Folder) ∧
    (c.DashboardByUID gfLog uid transport resDecode = some d₃ →
      d₃.FolderID = d₃.Meta.Folder) :=
  ⟨fun h => dashboard_helper_folder c gfLog path transport resDecode d₁ h,
   fun h => dashboard_helper_folder c gfLog _ transport resDecode d₂ h,
   fun h => dashboard_helper_folder c gfLog _ transport resDecode d₃ h⟩

/-- Witness for C10: a concrete fetch decoding `dash0` (top-level folderId 3,
meta folderId 5) returns the dashboard with FolderID 5. -/
theorem dashboard_folderID_meta_witness : dashFixed.FolderID = dashFixed.Meta.Folder :=
  (dashboard_folderID_meta (client0 0) false "s" "u" "/d" dashTransport dashDecode
    dashFixed dashFixed dashFixed).1 (by decide)

end Gapi
